import Mathlib

/-!
Verification of the learning-analytics core of the e-learning platform.

The Python sources are shallowly embedded: SQLAlchemy query results become
explicit list parameters, numeric values (Python ints/floats on payloads of
moderate size) become integers and rationals, `None`-able values become
`Option`, and Python dicts returned by the repository functions become
association lists from string keys to a small value type, preserving the key
order of the source.
-/

namespace ELearn

/-- A JSON-like value, as stored in the dictionaries the repository returns. -/
inductive JVal where
  | num (q : ℚ)
  | str (s : String)
deriving DecidableEq

/-- Python's `round` to the nearest integer: round half to even (banker's
rounding), which is what `round(x)` does on floats/ints. -/
def pyRoundInt (q : ℚ) : ℤ :=
  if q - ⌊q⌋ < 1/2 then ⌊q⌋
  else if 1/2 < q - ⌊q⌋ then ⌊q⌋ + 1
  else if ⌊q⌋ % 2 = 0 then ⌊q⌋ else ⌊q⌋ + 1

/-- Python's `round(x, 2)`: round to two decimal places. -/
def pyRound2 (q : ℚ) : ℚ := (pyRoundInt (q * 100) : ℚ) / 100

/-- A row of the `desempenhos` table
(`src/infrastructure/database/models.py`, class `Desempenho`): progress
percentage, optional grade, study time in minutes, and the `updated_at`
timestamp (measured in days since an epoch; `NULL` until the first update,
since the column only has `onupdate=func.now()`). -/
structure Desempenho where
  usuario_id : ℤ
  conteudo_id : ℤ
  progresso : ℚ
  nota : Option ℚ
  tempo_estudo : ℤ
  updated_at : Option ℚ
deriving DecidableEq

/-- `DesempenhoRepository.update_progress`
(`src/data_access/repositories/desempenho_repository.py`, lines 92-143).
`existing` is the result of the lookup query on the (user, content) pair;
`now` is `datetime.utcnow()`.  On an existing record the stored progress
becomes `max(old, new)` ("Don't decrease progress"), the grade is overwritten
only when one is supplied, and the study time is incremented only when one is
supplied.  Otherwise a fresh record is created with the passed values,
`tempo_estudo or 0` for the study time, and no `updated_at` yet. -/
def update_progress (existing : Option Desempenho) (user_id conteudo_id : ℤ)
    (progresso : ℚ) (nota : Option ℚ) (tempo_estudo : Option ℤ) (now : ℚ) :
    Desempenho :=
  match existing with
  | some d =>
      { d with
        progresso := max d.progresso progresso
        nota := match nota with | some n => some n | none => d.nota
        tempo_estudo := match tempo_estudo with
          | some t => d.tempo_estudo + t
          | none => d.tempo_estudo
        updated_at := some now }
  | none =>
      { usuario_id := user_id
        conteudo_id := conteudo_id
        progresso := progresso
        nota := nota
        tempo_estudo := tempo_estudo.getD 0
        updated_at := none }

/-- The loop of `DesempenhoRepository._calculate_learning_streak`
(`src/data_access/repositories/desempenho_repository.py`, lines 297-310):
iterate over the distinct activity dates in descending order, carrying
`current_date` (initially today) and the streak counter; a date extends the
streak when it equals `current_date` or `current_date - timedelta(days=streak)`,
and rebinds `current_date`; otherwise the loop breaks. Dates are integers
(calendar days since an epoch, the value of `func.date(updated_at)`). -/
def streakLoop : List ℤ → ℤ → ℕ → ℕ
  | [], _, streak => streak
  | d :: rest, current_date, streak =>
    if d = current_date ∨ d = current_date - streak then
      streakLoop rest d (streak + 1)
    else
      streak

/-- `DesempenhoRepository._calculate_learning_streak` (lines 272-313):
`activity_dates` is the query result — the user's distinct activity dates
(from `func.date(updated_at)`) sorted descending; `today` is
`datetime.utcnow().date()`.  Returns 0 when there are no activity dates. -/
def calculate_learning_streak (today : ℤ) (activity_dates : List ℤ) : ℕ :=
  if activity_dates = [] then 0
  else streakLoop activity_dates today 0

/-- A row of the `conteudos` table (`models.py`, class `Conteudo`): only the
fields the analytics code reads (the id and the owning trilha). -/
structure Conteudo where
  id : ℤ
  trilha_id : ℤ
deriving DecidableEq

/-- The contents of a trilha: the query
`db.query(Conteudo).filter(Conteudo.trilha_id == trilha_id).all()` over the
whole `conteudos` table. -/
def trilhaConteudos (trilha_id : ℤ) (all_conteudos : List Conteudo) :
    List Conteudo :=
  all_conteudos.filter (fun c => c.trilha_id = trilha_id)

/-- The user's performance records on a trilha's contents: the query
`db.query(Desempenho).filter(and_(usuario_id == user_id,
conteudo_id.in_(conteudo_ids))).all()` over the whole `desempenhos` table. -/
def trilhaDesempenhos (user_id trilha_id : ℤ) (all_conteudos : List Conteudo)
    (all_desempenhos : List Desempenho) : List Desempenho :=
  all_desempenhos.filter (fun d =>
    d.usuario_id = user_id ∧
    d.conteudo_id ∈ (trilhaConteudos trilha_id all_conteudos).map (·.id))

/-- `DesempenhoRepository.get_user_trilha_progress`
(`desempenho_repository.py`, lines 145-198), with the two SQL queries made
explicit as filters over the full tables.  Returns the empty dict when the
trilha has no contents, otherwise the summary dict in the key order of the
source. -/
def get_user_trilha_progress (user_id trilha_id : ℤ)
    (all_conteudos : List Conteudo) (all_desempenhos : List Desempenho) :
    List (String × JVal) :=
  let conteudos := trilhaConteudos trilha_id all_conteudos
  if conteudos = [] then []
  else
    let desempenhos := trilhaDesempenhos user_id trilha_id all_conteudos all_desempenhos
    let total_content : ℕ := conteudos.length
    let completed_content : ℕ :=
      (desempenhos.filter (fun d => 100 ≤ d.progresso)).length
    let graded := desempenhos.filter (fun d => d.nota ≠ none)
    let avg_progress : ℚ :=
      if desempenhos ≠ [] then
        (desempenhos.map (·.progresso)).sum / desempenhos.length
      else 0
    let avg_grade : ℚ :=
      if desempenhos ≠ [] then
        if graded ≠ [] then
          (graded.map (fun d => d.nota.getD 0)).sum / graded.length
        else 0
      else 0
    let total_study_time : ℤ :=
      if desempenhos ≠ [] then (desempenhos.map (·.tempo_estudo)).sum else 0
    [("user_id", JVal.num user_id),
     ("trilha_id", JVal.num trilha_id),
     ("total_content", JVal.num total_content),
     ("completed_content", JVal.num completed_content),
     ("completion_rate",
      JVal.num (if 0 < total_content then
        pyRound2 ((completed_content : ℚ) / total_content * 100) else 0)),
     ("average_progress", JVal.num (pyRound2 avg_progress)),
     ("average_grade", JVal.num (pyRound2 avg_grade)),
     ("total_study_time_minutes", JVal.num total_study_time),
     ("total_study_time_hours", JVal.num (pyRound2 ((total_study_time : ℚ) / 60)))]

/-- The user's distinct activity dates in descending order: the query
`db.query(func.date(updated_at)).filter(usuario_id == user_id).distinct()
.order_by(desc(func.date(updated_at)))` of `_calculate_learning_streak`.
Records whose `updated_at` is still `NULL` contribute no date. -/
def distinctActivityDatesDesc (user_id : ℤ)
    (all_desempenhos : List Desempenho) : List ℤ :=
  ((((all_desempenhos.filter (fun d => d.usuario_id = user_id)).filterMap
      (·.updated_at)).map (fun t => ⌊t⌋)).dedup).insertionSort (fun a b => b ≤ a)

/-- `DesempenhoRepository.get_learning_analytics`
(`desempenho_repository.py`, lines 200-270).  `now` is `datetime.utcnow()`
measured in days since the epoch, so `now - days` is the cutoff date and
`⌊now⌋` is today's calendar date.  When the user has no performance records
at all the result is the two-entry "no data" dict; otherwise it is the full
metrics dict in the key order of the source. -/
def get_learning_analytics (now : ℚ) (user_id : ℤ) (days : ℕ)
    (all_desempenhos : List Desempenho) : List (String × JVal) :=
  let cutoff_date := now - days
  let all_ds := all_desempenhos.filter (fun d => d.usuario_id = user_id)
  let recent_ds := all_desempenhos.filter (fun d =>
    decide (d.usuario_id = user_id) &&
    match d.updated_at with
    | some t => decide (cutoff_date ≤ t)
    | none => false)
  if all_ds = [] then
    [("user_id", JVal.num user_id),
     ("message", JVal.str "No learning data available")]
  else
    let total_activities : ℕ := all_ds.length
    let recent_activities : ℕ := recent_ds.length
    let avg_progress_all : ℚ := (all_ds.map (·.progresso)).sum / all_ds.length
    let avg_progress_recent : ℚ :=
      if recent_ds ≠ [] then (recent_ds.map (·.progresso)).sum / recent_ds.length
      else 0
    let completed_activities : ℕ :=
      (all_ds.filter (fun d => 100 ≤ d.progresso)).length
    let recent_completed : ℕ :=
      (recent_ds.filter (fun d => 100 ≤ d.progresso)).length
    let total_study_time : ℤ := (all_ds.map (·.tempo_estudo)).sum
    let recent_study_time : ℤ := (recent_ds.map (·.tempo_estudo)).sum
    let graded := all_ds.filter (fun d => d.nota ≠ none)
    let avg_grade : ℚ :=
      if graded ≠ [] then (graded.map (fun d => d.nota.getD 0)).sum / graded.length
      else 0
    let recent_graded := recent_ds.filter (fun d => d.nota ≠ none)
    let recent_avg_grade : ℚ :=
      if recent_graded ≠ [] then
        (recent_graded.map (fun d => d.nota.getD 0)).sum / recent_graded.length
      else 0
    [("user_id", JVal.num user_id),
     ("analysis_period_days", JVal.num days),
     ("total_activities", JVal.num total_activities),
     ("recent_activities", JVal.num recent_activities),
     ("completed_activities", JVal.num completed_activities),
     ("recent_completed", JVal.num recent_completed),
     ("completion_rate",
      JVal.num (pyRound2 ((completed_activities : ℚ) / total_activities * 100))),
     ("average_progress_all_time", JVal.num (pyRound2 avg_progress_all)),
     ("average_progress_recent", JVal.num (pyRound2 avg_progress_recent)),
     ("average_grade_all_time", JVal.num (pyRound2 avg_grade)),
     ("average_grade_recent", JVal.num (pyRound2 recent_avg_grade)),
     ("total_study_time_hours", JVal.num (pyRound2 ((total_study_time : ℚ) / 60))),
     ("recent_study_time_hours", JVal.num (pyRound2 ((recent_study_time : ℚ) / 60))),
     ("daily_average_study_time",
      JVal.num (if 0 < days then
        pyRound2 ((recent_study_time : ℚ) / days / 60) else 0)),
     ("learning_streak",
      JVal.num (calculate_learning_streak ⌊now⌋
        (distinctActivityDatesDesc user_id all_desempenhos)))]

/-- The Lua function `calculate_response_confidence`
(`src/business/ai/chatbot_service.py`, lines 90-109, inside the embedded Lua
chunk).  `has_learning_level` is the Lua truthiness of
`user_context and user_context.learning_level` (the context passed by
`process_message` always exists; its `learning_level` is the user's
`perfil_aprend`, which may be `None`). -/
def calculate_response_confidence (intent : String) (keywords_count : ℕ)
    (has_learning_level : Bool) : ℚ :=
  let c1 : ℚ := 7/10
  let c2 : ℚ := if intent ≠ "general" then c1 + 1/10 else c1
  let c3 : ℚ := if 0 < keywords_count then c2 + keywords_count * (5/100) else c2
  let c4 : ℚ := if has_learning_level then c3 + 1/10 else c3
  min c4 1

/-- One stored exchange of `ChatbotService.conversation_history`
(`chatbot_service.py`, `_store_conversation`). -/
structure Exchange where
  timestamp : String
  user_message : String
  bot_response : String
  intent : String
deriving DecidableEq

/-- `ChatbotService._store_conversation` acting on one user's history list
(`chatbot_service.py`, lines 353-367): append the new exchange, then keep
only the last 10 (`history[-10:]`) when the list exceeds 10 entries. -/
def store_conversation (history : List Exchange) (e : Exchange) :
    List Exchange :=
  let h := history ++ [e]
  if 10 < h.length then h.drop (h.length - 10) else h

/-- The analytics values that `_generate_habit_recommendations` reads from the
analytics dict via `analytics.get(key, 0)` (missing keys default to 0). -/
structure AnalyticsInfo where
  daily_average_study_time : ℚ
  learning_streak : ℤ
  completion_rate : ℚ
deriving DecidableEq

/-- One habit recommendation.  The constant identification fields of the
source dicts are kept; the two formatted display strings (`current_value`,
`target_value`, built with Python float formatting) are presentation-only and
not modelled. -/
structure HabitRec where
  rtype : String
  title : String
  description : String
  priority : String
deriving DecidableEq

/-- The "increase daily study time" recommendation
(`recommendation_engine.py`, lines 211-218). -/
def studyTimeRec : HabitRec :=
  { rtype := "study_habit"
    title := "Increase Daily Study Time"
    description := "Try to study for at least 30 minutes daily for better retention"
    priority := "high" }

/-- The "build consistency" recommendation (lines 223-230). -/
def consistencyRec : HabitRec :=
  { rtype := "consistency"
    title := "Build Learning Consistency"
    description := "Try to learn something every day to build a strong habit"
    priority := "medium" }

/-- The "focus on completing content" recommendation (lines 235-242). -/
def completionRec : HabitRec :=
  { rtype := "completion"
    title := "Focus on Completing Content"
    description := "Try to complete more content before starting new topics"
    priority := "medium" }

/-- `RecommendationEngine._generate_habit_recommendations`
(`src/business/ai/recommendation_engine.py`, lines 196-244): three threshold
rules append their recommendation in source order. -/
def generate_habit_recommendations (a : AnalyticsInfo) : List HabitRec :=
  (if a.daily_average_study_time < 1/2 then [studyTimeRec] else []) ++
  (if a.learning_streak < 3 then [consistencyRec] else []) ++
  (if a.completion_rate < 70 then [completionRec] else [])

/-- A row of the `trilhas` table (`models.py`, class `Trilha`): the fields the
recommendation code reads. -/
structure Trilha where
  id : ℤ
  titulo : String
  dificuldade : String
deriving DecidableEq

/-- The fields of `Usuario` read by the recommendation engine;
`perfil_aprend` is nullable. -/
structure Usuario where
  id : ℤ
  nome : String
  perfil_aprend : Option String
deriving DecidableEq

/-- Python truthiness of `user.perfil_aprend` (`if user.perfil_aprend:`):
false for `None` and for the empty string. -/
def perfil_truthy : Option String → Bool
  | none => false
  | some p => p != ""

/-- The difficulty filter of
`TrilhaRepository.get_recommended_trilhas_for_user`
(`src/data_access/repositories/trilha_repository.py`, lines 247-253):
beginner → {beginner, intermediate}; intermediate → {intermediate, advanced};
any other (truthy) profile → advanced only.  Only consulted when the profile
is truthy. -/
def tier_matches (perfil : Option String) (dificuldade : String) : Bool :=
  match perfil with
  | some "beginner" => dificuldade == "beginner" || dificuldade == "intermediate"
  | some "intermediate" => dificuldade == "intermediate" || dificuldade == "advanced"
  | _ => dificuldade == "advanced"

/-- Whether a trilha's difficulty passes the profile filter of
`get_recommended_trilhas_for_user`: everything passes when the profile is
falsy (the filter is skipped), otherwise `tier_matches` decides. -/
def tier_allows (perfil : Option String) (dificuldade : String) : Bool :=
  if perfil_truthy perfil then tier_matches perfil dificuldade else true

/-- The first query stage of
`TrilhaRepository.get_recommended_trilhas_for_user` (lines 241-243): exclude
the trilhas the user is enrolled in, but only when the enrolled list is
non-empty (mirroring `if enrolled_trilha_ids:`).  `all_trilhas` is the
`trilhas` table in query order. -/
def recommended_query_base (enrolled_ids : List ℤ)
    (all_trilhas : List Trilha) : List Trilha :=
  if enrolled_ids ≠ [] then
    all_trilhas.filter (fun t => !(enrolled_ids.contains t.id))
  else all_trilhas

/-- The second query stage of `get_recommended_trilhas_for_user` (lines
247-253): apply the difficulty-progression filter when the profile is
truthy. -/
def recommended_query (user : Usuario) (enrolled_ids : List ℤ)
    (all_trilhas : List Trilha) : List Trilha :=
  if perfil_truthy user.perfil_aprend then
    (recommended_query_base enrolled_ids all_trilhas).filter
      (fun t => tier_matches user.perfil_aprend t.dificuldade)
  else recommended_query_base enrolled_ids all_trilhas

/-- `TrilhaRepository.get_recommended_trilhas_for_user` (lines 219-258):
the two filter stages followed by `query.limit(limit)`. -/
def get_recommended_trilhas_for_user (user : Usuario) (enrolled_ids : List ℤ)
    (all_trilhas : List Trilha) (limit : ℕ) : List Trilha :=
  (recommended_query user enrolled_ids all_trilhas).take limit

/-- One structured content recommendation
(`_process_ai_recommendations`, `recommendation_engine.py`). -/
structure ContentRec where
  rtype : String
  id : ℤ
  titulo : String
  dificuldade : String
  reason : String
  confidence : ℚ
  source : String
deriving DecidableEq

/-- Python's string interpolation of `user_profile.get("perfil_aprend",
"beginner")`: the key is always present, so the default never applies and a
`None` profile prints as `"None"`. -/
def difficulty_level_str : Option String → String
  | some p => p
  | none => "None"

/-- A tier-matched recommendation entry (`recommendation_engine.py`,
lines 158-167), confidence 0.85. -/
def mk_tier_rec (difficulty_level : String) (t : Trilha) : ContentRec :=
  { rtype := "trilha"
    id := t.id
    titulo := t.titulo
    dificuldade := t.dificuldade
    reason := "Matches your " ++ difficulty_level ++ " learning profile"
    confidence := 85/100
    source := "ai_analysis" }

/-- A popularity-based recommendation entry (lines 170-180), confidence
0.75; the second component is the enrollment count. -/
def mk_pop_rec (t : Trilha) (count : ℕ) : ContentRec :=
  { rtype := "trilha"
    id := t.id
    titulo := t.titulo
    dificuldade := t.dificuldade
    reason := "Popular choice with " ++ toString count ++ " enrollments"
    confidence := 75/100
    source := "popularity_based" }

/-- The popular-trilhas loop of `_process_ai_recommendations` (lines
170-180): append each popular trilha unless its id already occurs among the
recommendations accumulated so far. -/
def add_popular (recs : List ContentRec) (populars : List (Trilha × ℕ)) :
    List ContentRec :=
  populars.foldl (fun acc p =>
    if p.1.id ∈ acc.map (·.id) then acc else acc ++ [mk_pop_rec p.1 p.2]) recs

/-- The structured part of a recommendation set
(`_process_ai_recommendations` return dict). -/
structure StructuredRecs where
  content_recommendations : List ContentRec
  habit_recommendations : List HabitRec
  ai_insights : String
  total_recommendations : ℕ
deriving DecidableEq

/-- `RecommendationEngine._process_ai_recommendations`
(`recommendation_engine.py`, lines 134-194).  `populars` is the result of
`get_popular_trilhas(limit=5)` (trilha with enrollment count, ordered by
count descending); the engine queries recommended trilhas with `limit=10`,
keeps the top 3, then adds up to 2 popular trilhas not already present, and
finally the habit recommendations. -/
def process_ai_recommendations (user : Usuario) (enrolled_ids : List ℤ)
    (all_trilhas : List Trilha) (populars : List (Trilha × ℕ))
    (analytics : AnalyticsInfo) (ai_text : String) : StructuredRecs :=
  let available := get_recommended_trilhas_for_user user enrolled_ids all_trilhas 10
  let recs1 := (available.take 3).map
    (mk_tier_rec (difficulty_level_str user.perfil_aprend))
  let recs := add_popular recs1 (populars.take 2)
  let habits := generate_habit_recommendations analytics
  { content_recommendations := recs
    habit_recommendations := habits
    ai_insights := ai_text
    total_recommendations := recs.length + habits.length }

/-- The fallback text returned by
`GeminiClient.generate_learning_recommendations` when the API call raises
(`src/infrastructure/integration/gemini_client.py`, lines 62-64). -/
def fallback_recommendation_text : String :=
  "Unable to generate recommendations at this time. Please try again later."

/-- `GeminiClient.generate_learning_recommendations` (lines 46-64): the
external call either produces a text (`some text`) or raises (`none`), in
which case the fallback text is returned instead of propagating the error. -/
def generate_learning_recommendations (api_result : Option String) : String :=
  match api_result with
  | some text => text
  | none => fallback_recommendation_text

/-- The envelope returned by
`RecommendationEngine.generate_personalized_recommendations` (lines 62-69);
the timestamp and static model-name fields are omitted. -/
structure RecommendationResult where
  success : Bool
  user_id : ℤ
  ai_recommendations : String
  structured_recommendations : StructuredRecs
deriving DecidableEq

/-- `RecommendationEngine.generate_personalized_recommendations`
(`recommendation_engine.py`, lines 25-72), on the path where the user exists:
call the text-generation client (fallback on failure), build the structured
recommendations from it, and return a `success = true` envelope.
`api_result` is the outcome of the external Gemini call (`none` = raised). -/
def generate_personalized_recommendations (api_result : Option String)
    (user : Usuario) (enrolled_ids : List ℤ) (all_trilhas : List Trilha)
    (populars : List (Trilha × ℕ)) (analytics : AnalyticsInfo) :
    RecommendationResult :=
  let ai_text := generate_learning_recommendations api_result
  let structured := process_ai_recommendations user enrolled_ids all_trilhas
    populars analytics ai_text
  { success := true
    user_id := user.id
    ai_recommendations := ai_text
    structured_recommendations := structured }

/-! ### Helper lemmas about Python rounding -/

theorem pyRoundInt_eq_floor_or (q : ℚ) :
    pyRoundInt q = ⌊q⌋ ∨ (pyRoundInt q = ⌊q⌋ + 1 ∧ 1/2 ≤ q - ⌊q⌋) := by
  unfold pyRoundInt
  split_ifs with h1 h2 h3
  · exact Or.inl rfl
  · exact Or.inr ⟨rfl, le_of_lt h2⟩
  · exact Or.inl rfl
  · exact Or.inr ⟨rfl, le_of_not_lt h1⟩

theorem pyRoundInt_nonneg (q : ℚ) (h : 0 ≤ q) : 0 ≤ pyRoundInt q := by
  have hf : (0 : ℤ) ≤ ⌊q⌋ := Int.floor_nonneg.mpr h
  rcases pyRoundInt_eq_floor_or q with h1 | ⟨h1, _⟩ <;> rw [h1] <;> omega

theorem pyRoundInt_le_of_le (q : ℚ) (n : ℤ) (h : q ≤ n) : pyRoundInt q ≤ n := by
  have hf : ⌊q⌋ ≤ n := by
    have := Int.floor_le_floor h
    simpa using this
  rcases pyRoundInt_eq_floor_or q with h1 | ⟨h1, hhalf⟩
  · rw [h1]; exact hf
  · rw [h1]
    rcases lt_or_eq_of_le hf with hlt | heq
    · omega
    · exfalso
      have hq : ((⌊q⌋ : ℤ) : ℚ) = (n : ℚ) := by exact_mod_cast heq
      linarith [hhalf, h, hq]

theorem pyRound2_nonneg (q : ℚ) (h : 0 ≤ q) : 0 ≤ pyRound2 q := by
  unfold pyRound2
  have h100 : (0 : ℚ) ≤ q * 100 := by linarith
  have := pyRoundInt_nonneg (q * 100) h100
  positivity

theorem pyRound2_le_of_le (q : ℚ) (n : ℤ) (h : q ≤ n) : pyRound2 q ≤ n := by
  unfold pyRound2
  have h100 : q * 100 ≤ ((n * 100 : ℤ) : ℚ) := by push_cast; linarith
  have hr := pyRoundInt_le_of_le (q * 100) (n * 100) h100
  have hr' : ((pyRoundInt (q * 100) : ℤ) : ℚ) ≤ ((n * 100 : ℤ) : ℚ) := by
    exact_mod_cast hr
  push_cast at hr'
  linarith

theorem pyRound2_zero : pyRound2 0 = 0 := by
  norm_num [pyRound2, pyRoundInt]

/-! ### Claim theorems -/

/-- C1: the spec (and the function's own docstring) demand that a user active
on exactly {today, today-1, today-2} has streak 3, and that a user whose last
activity predates today still gets the run length ending there.  The code
disagrees: with today = 100 and distinct descending activity dates
[100, 99, 98] it returns 2 (the loop both rebinds `current_date` and offsets
by the already-incremented streak, so the third day is compared against
day 97), and with dates [95, 94] it returns 0 (the first date must equal
today).  Only the zero-activity case matches the claim. -/
theorem streak_code_eval_at_bug_inputs :
    calculate_learning_streak 100 [100, 99, 98] = 2 ∧
    calculate_learning_streak 100 [95, 94] = 0 ∧
    calculate_learning_streak 100 [] = 0 := by decide

/-- C2 counterexample: for a user with no performance records,
`get_learning_analytics` does not return zero-valued numeric fields — the
numeric keys are absent from the returned dict altogether (only `user_id`
and the "no data" message are present). -/
theorem analytics_no_data_fields_absent :
    List.lookup "total_activities" (get_learning_analytics 1000 42 30 []) ≠
      some (JVal.num 0) ∧
    List.lookup "completion_rate" (get_learning_analytics 1000 42 30 []) ≠
      some (JVal.num 0) ∧
    List.lookup "message" (get_learning_analytics 1000 42 30 []) =
      some (JVal.str "No learning data available") := by decide

/-- C2 amended: when the user has no performance records,
`get_learning_analytics` returns (without error) exactly the two-entry dict
with the user id and the "No learning data available" marker; the numeric
fields are absent rather than zero. -/
theorem analytics_no_data_shape (now : ℚ) (uid : ℤ) (days : ℕ)
    (table : List Desempenho)
    (hnone : table.filter (fun d => d.usuario_id = uid) = []) :
    get_learning_analytics now uid days table =
      [("user_id", JVal.num uid),
       ("message", JVal.str "No learning data available")] := by
  unfold get_learning_analytics
  simp [hnone]

/-- Witness for `analytics_no_data_shape` at a concrete input. -/
theorem analytics_no_data_shape_witness :
    ([] : List Desempenho).filter (fun d => d.usuario_id = 42) = [] ∧
    get_learning_analytics 1000 42 30 [] =
      [("user_id", JVal.num 42),
       ("message", JVal.str "No learning data available")] :=
  ⟨rfl, analytics_no_data_shape 1000 42 30 [] rfl⟩

/-- C3: updating an existing performance record stores
`max(old progress, new progress)`, overwrites the grade exactly when one is
supplied, and accumulates the study time (adding 0 when none is supplied);
consequently two successive updates with progresses p1 and p2 on a fresh
(user, content) pair leave stored progress `max p1 p2`. -/
theorem update_progress_existing_semantics (d : Desempenho) (uid cid : ℤ)
    (p : ℚ) (g : Option ℚ) (t : Option ℤ) (now : ℚ) (p1 p2 : ℚ)
    (g1 g2 : Option ℚ) (t1 t2 : Option ℤ) :
    (update_progress (some d) uid cid p g t now).progresso =
      max d.progresso p ∧
    (update_progress (some d) uid cid p g t now).nota =
      (match g with | some n => some n | none => d.nota) ∧
    (update_progress (some d) uid cid p g t now).tempo_estudo =
      d.tempo_estudo + t.getD 0 ∧
    (update_progress
      (some (update_progress none uid cid p1 g1 t1 now))
      uid cid p2 g2 t2 now).progresso = max p1 p2 := by
  refine ⟨rfl, rfl, ?_, rfl⟩
  cases t <;> simp [update_progress]

/-- C10: when no record exists for the (user, content) pair,
`update_progress` creates one storing exactly the passed progress and grade
(no clamping to [0, 100] — e.g. progress 150 and grade 120 are stored as
such), and the passed study time, defaulting to 0 when it is omitted. -/
theorem update_progress_create_semantics (uid cid : ℤ) (p : ℚ)
    (g : Option ℚ) (t : Option ℤ) (now : ℚ) :
    (update_progress none uid cid p g t now).progresso = p ∧
    (update_progress none uid cid p g t now).nota = g ∧
    (update_progress none uid cid p g t now).tempo_estudo = t.getD 0 ∧
    (update_progress none uid cid p g none now).tempo_estudo = 0 ∧
    (update_progress none uid cid 150 (some 120) t now).progresso = 150 ∧
    (update_progress none uid cid 150 (some 120) t now).nota = some 120 := by
  refine ⟨rfl, rfl, rfl, rfl, rfl, rfl⟩

/-- C5: for the spec's example — a 2-item trilha where the user has
progress 100 with grade 90 on the first item and progress 40 with no grade
on the second — `get_user_trilha_progress` reports completion rate 50.0,
average progress 70.0 and average grade 90.0 (averaging only the non-null
grade). -/
theorem trilha_progress_example :
    List.lookup "completion_rate"
      (get_user_trilha_progress 5 7 [⟨1, 7⟩, ⟨2, 7⟩]
        [⟨5, 1, 100, some 90, 30, some 200⟩, ⟨5, 2, 40, none, 15, some 200⟩]) =
      some (JVal.num 50) ∧
    List.lookup "average_progress"
      (get_user_trilha_progress 5 7 [⟨1, 7⟩, ⟨2, 7⟩]
        [⟨5, 1, 100, some 90, 30, some 200⟩, ⟨5, 2, 40, none, 15, some 200⟩]) =
      some (JVal.num 70) ∧
    List.lookup "average_grade"
      (get_user_trilha_progress 5 7 [⟨1, 7⟩, ⟨2, 7⟩]
        [⟨5, 1, 100, some 90, 30, some 200⟩, ⟨5, 2, 40, none, 15, some 200⟩]) =
      some (JVal.num 90) := by
  refine ⟨?_, ?_, ?_⟩
  · have h : List.lookup "completion_rate"
        (get_user_trilha_progress 5 7 [⟨1, 7⟩, ⟨2, 7⟩]
          [⟨5, 1, 100, some 90, 30, some 200⟩,
           ⟨5, 2, 40, none, 15, some 200⟩]) =
        some (JVal.num (pyRound2 ((1 : ℚ) / 2 * 100))) := rfl
    rw [h]
    norm_num [pyRound2, pyRoundInt]
  · have h : List.lookup "average_progress"
        (get_user_trilha_progress 5 7 [⟨1, 7⟩, ⟨2, 7⟩]
          [⟨5, 1, 100, some 90, 30, some 200⟩,
           ⟨5, 2, 40, none, 15, some 200⟩]) =
        some (JVal.num (pyRound2 ((100 + (40 + 0) : ℚ) / 2))) := rfl
    rw [h]
    norm_num [pyRound2, pyRoundInt]
  · have h : List.lookup "average_grade"
        (get_user_trilha_progress 5 7 [⟨1, 7⟩, ⟨2, 7⟩]
          [⟨5, 1, 100, some 90, 30, some 200⟩,
           ⟨5, 2, 40, none, 15, some 200⟩]) =
        some (JVal.num (pyRound2 ((90 + 0 : ℚ) / 1))) := rfl
    rw [h]
    norm_num [pyRound2, pyRoundInt]

/-- C8: the chatbot confidence equals
`min(0.7 + (0.1 if intent ≠ general) + 0.05·keywords + (0.1 if a learning
level is available), 1.0)` and in particular never exceeds 1. -/
theorem confidence_formula (intent : String) (k : ℕ) (hasLvl : Bool) :
    calculate_response_confidence intent k hasLvl =
      min ((7 : ℚ)/10 + (if intent ≠ "general" then 1/10 else 0) +
        (5/100) * k + (if hasLvl then 1/10 else 0)) 1 ∧
    calculate_response_confidence intent k hasLvl ≤ 1 := by
  constructor
  · simp only [calculate_response_confidence]
    rcases Nat.eq_zero_or_pos k with hk | hk
    · subst hk
      split_ifs <;>
        exact congrArg (fun x => min x 1) (by push_cast; ring)
    · split_ifs <;>
        first
          | (exfalso; omega)
          | (exact congrArg (fun x => min x 1) (by push_cast; ring))
  · exact min_le_right _ _

/-- C9: storing a new exchange never leaves more than 10 exchanges in a
user's conversation history, and the retained entries are exactly a suffix
of the old history followed by the new exchange — the most recent ones, with
the oldest evicted first. -/
theorem store_conversation_cap (h : List Exchange) (e : Exchange) :
    (store_conversation h e).length ≤ 10 ∧
    store_conversation h e = (h ++ [e]).drop (h.length + 1 - 10) := by
  have hlen : (h ++ [e]).length = h.length + 1 := by simp
  unfold store_conversation
  by_cases hc : 10 < (h ++ [e]).length
  · rw [if_pos hc]
    constructor
    · rw [List.length_drop]
      omega
    · rw [hlen]
  · rw [if_neg hc]
    rw [hlen] at hc
    constructor
    · rw [hlen]; omega
    · have h0 : h.length + 1 - 10 = 0 := by omega
      rw [h0, List.drop_zero]

/-- C7: the habit-recommendation step emits the "increase daily study time"
recommendation (priority high) exactly when the daily average study time is
below 0.5 hours, the "build consistency" recommendation (priority medium)
exactly when the learning streak is below 3, the "focus on completing
content" recommendation (priority medium) exactly when the completion rate
is below 70, and nothing else. -/
theorem habit_recommendation_rules (a : AnalyticsInfo) :
    (studyTimeRec ∈ generate_habit_recommendations a ↔
      a.daily_average_study_time < 1/2) ∧
    (consistencyRec ∈ generate_habit_recommendations a ↔
      a.learning_streak < 3) ∧
    (completionRec ∈ generate_habit_recommendations a ↔
      a.completion_rate < 70) ∧
    studyTimeRec.priority = "high" ∧
    consistencyRec.priority = "medium" ∧
    completionRec.priority = "medium" ∧
    ∀ r ∈ generate_habit_recommendations a,
      r = studyTimeRec ∨ r = consistencyRec ∨ r = completionRec := by
  unfold generate_habit_recommendations
  by_cases h1 : a.daily_average_study_time < 1/2 <;>
  by_cases h2 : a.learning_streak < 3 <;>
  by_cases h3 : a.completion_rate < 70 <;>
    simp [h1, h2, h3, studyTimeRec, consistencyRec, completionRec] <;>
    tauto

/-- Witness for `habit_recommendation_rules` at a concrete analytics
input. -/
theorem habit_recommendation_rules_witness :
    (studyTimeRec ∈ generate_habit_recommendations ⟨0, 0, 80⟩ ↔
      ((0 : ℚ) < 1/2)) ∧
    (consistencyRec ∈ generate_habit_recommendations ⟨0, 0, 80⟩ ↔
      ((0 : ℤ) < 3)) ∧
    (completionRec ∈ generate_habit_recommendations ⟨0, 0, 80⟩ ↔
      ((80 : ℚ) < 70)) ∧
    studyTimeRec.priority = "high" ∧
    consistencyRec.priority = "medium" ∧
    completionRec.priority = "medium" ∧
    ∀ r ∈ generate_habit_recommendations ⟨0, 0, 80⟩,
      r = studyTimeRec ∨ r = consistencyRec ∨ r = completionRec :=
  habit_recommendation_rules ⟨0, 0, 80⟩

/-- The value stored under `"completion_rate"` by
`get_user_trilha_progress`, when the trilha has contents. -/
theorem lookup_completion_rate (uid tid : ℤ) (cs : List Conteudo)
    (ds : List Desempenho) (hne : trilhaConteudos tid cs ≠ []) :
    List.lookup "completion_rate" (get_user_trilha_progress uid tid cs ds) =
      some (JVal.num (if 0 < (trilhaConteudos tid cs).length then
        pyRound2 ((((trilhaDesempenhos uid tid cs ds).filter
            (fun d => 100 ≤ d.progresso)).length : ℚ) /
          ((trilhaConteudos tid cs).length : ℚ) * 100)
      else 0)) := by
  simp only [get_user_trilha_progress]
  rw [if_neg hne]
  simp [List.lookup]

/-- Each desempenho selected for a trilha belongs to that trilha's content
id list. -/
theorem trilhaDesempenhos_conteudo_mem (uid tid : ℤ) (cs : List Conteudo)
    (ds : List Desempenho) (d : Desempenho)
    (hd : d ∈ trilhaDesempenhos uid tid cs ds) :
    d.conteudo_id ∈ (trilhaConteudos tid cs).map (·.id) := by
  have h := List.mem_filter.mp hd
  exact (of_decide_eq_true h.2).2

/-- C6: for every user and trilha with at least one content item (and at
most one record per content item, as the repository's upsert guarantees),
the completion rate equals the number of distinct content items with
progress ≥ 100 divided by the total number of content items, times 100,
Python-rounded to 2 decimals; it lies in [0, 100] and is 0 when the user
has no records on the trilha. -/
theorem completion_rate_spec (uid tid : ℤ) (cs : List Conteudo)
    (ds : List Desempenho)
    (hne : trilhaConteudos tid cs ≠ [])
    (hnodup : ((trilhaDesempenhos uid tid cs ds).map (·.conteudo_id)).Nodup) :
    ∃ q : ℚ,
      List.lookup "completion_rate" (get_user_trilha_progress uid tid cs ds) =
        some (JVal.num q) ∧
      q = pyRound2
        (((((trilhaDesempenhos uid tid cs ds).filter
              (fun d => 100 ≤ d.progresso)).map (·.conteudo_id)).toFinset.card :
            ℚ) / ((trilhaConteudos tid cs).length : ℚ) * 100) ∧
      0 ≤ q ∧ q ≤ 100 ∧
      (trilhaDesempenhos uid tid cs ds = [] → q = 0) := by
  have htotpos : 0 < (trilhaConteudos tid cs).length := List.length_pos.mpr hne
  refine ⟨pyRound2 ((((trilhaDesempenhos uid tid cs ds).filter
      (fun d => 100 ≤ d.progresso)).length : ℚ) /
      ((trilhaConteudos tid cs).length : ℚ) * 100), ?_, ?_, ?_, ?_, ?_⟩
  · rw [lookup_completion_rate uid tid cs ds hne, if_pos htotpos]
  · have hsub : List.Sublist
        (((trilhaDesempenhos uid tid cs ds).filter
          (fun d => 100 ≤ d.progresso)).map (·.conteudo_id))
        ((trilhaDesempenhos uid tid cs ds).map (·.conteudo_id)) :=
      (List.filter_sublist _).map _
    have hnd2 := hnodup.sublist hsub
    rw [List.toFinset_card_of_nodup hnd2, List.length_map]
  · apply pyRound2_nonneg
    positivity
  · have hDlen : (trilhaDesempenhos uid tid cs ds).length ≤
        (trilhaConteudos tid cs).length := by
      have hnd : ((trilhaDesempenhos uid tid cs ds).map
          (·.conteudo_id)).Nodup := hnodup
      have hsubset : ((trilhaDesempenhos uid tid cs ds).map
          (·.conteudo_id)).toFinset ⊆
          ((trilhaConteudos tid cs).map (·.id)).toFinset := by
        intro x hx
        simp only [List.mem_toFinset, List.mem_map] at hx ⊢
        obtain ⟨d, hd, rfl⟩ := hx
        have := trilhaDesempenhos_conteudo_mem uid tid cs ds d hd
        simpa [List.mem_map] using this
      calc (trilhaDesempenhos uid tid cs ds).length
          = ((trilhaDesempenhos uid tid cs ds).map
              (·.conteudo_id)).length := (List.length_map _ _).symm
        _ = ((trilhaDesempenhos uid tid cs ds).map
              (·.conteudo_id)).toFinset.card :=
            (List.toFinset_card_of_nodup hnd).symm
        _ ≤ ((trilhaConteudos tid cs).map (·.id)).toFinset.card :=
            Finset.card_le_card hsubset
        _ ≤ ((trilhaConteudos tid cs).map (·.id)).length :=
            List.toFinset_card_le _
        _ = (trilhaConteudos tid cs).length := List.length_map _ _
    have hclen : ((trilhaDesempenhos uid tid cs ds).filter
        (fun d => 100 ≤ d.progresso)).length ≤
        (trilhaConteudos tid cs).length :=
      le_trans (List.length_filter_le _ _) hDlen
    have harg : ((((trilhaDesempenhos uid tid cs ds).filter
        (fun d => 100 ≤ d.progresso)).length : ℚ) /
        ((trilhaConteudos tid cs).length : ℚ) * 100) ≤ ((100 : ℤ) : ℚ) := by
      have htotq : (0 : ℚ) < ((trilhaConteudos tid cs).length : ℚ) := by
        exact_mod_cast htotpos
      have hle : ((((trilhaDesempenhos uid tid cs ds).filter
          (fun d => 100 ≤ d.progresso)).length : ℚ)) ≤
          ((trilhaConteudos tid cs).length : ℚ) := by exact_mod_cast hclen
      have h1 : ((((trilhaDesempenhos uid tid cs ds).filter
          (fun d => 100 ≤ d.progresso)).length : ℚ) /
          ((trilhaConteudos tid cs).length : ℚ)) ≤ 1 :=
        (div_le_one htotq).mpr hle
      push_cast
      nlinarith [h1]
    have := pyRound2_le_of_le _ 100 harg
    simpa using this
  · intro h0
    rw [h0]
    simp [pyRound2_zero]

/-- Witness for `completion_rate_spec` at a concrete input (one-content
trilha, no records). -/
theorem completion_rate_spec_witness :
    trilhaConteudos 7 [⟨1, 7⟩] ≠ [] ∧
    ((trilhaDesempenhos 5 7 [⟨1, 7⟩] []).map (·.conteudo_id)).Nodup ∧
    (∃ q : ℚ,
      List.lookup "completion_rate" (get_user_trilha_progress 5 7 [⟨1, 7⟩] []) =
        some (JVal.num q) ∧
      q = pyRound2
        (((((trilhaDesempenhos 5 7 [⟨1, 7⟩] []).filter
              (fun d => 100 ≤ d.progresso)).map (·.conteudo_id)).toFinset.card :
            ℚ) / ((trilhaConteudos 7 [⟨1, 7⟩]).length : ℚ) * 100) ∧
      0 ≤ q ∧ q ≤ 100 ∧
      (trilhaDesempenhos 5 7 [⟨1, 7⟩] [] = [] → q = 0)) :=
  ⟨by decide, by decide,
    completion_rate_spec 5 7 [⟨1, 7⟩] [] (by decide) (by decide)⟩

/-- The popular-trilhas loop only ever appends, so it preserves
non-emptiness of the accumulated recommendations. -/
theorem add_popular_ne_nil (ps : List (Trilha × ℕ)) (recs : List ContentRec)
    (h : recs ≠ []) : add_popular recs ps ≠ [] := by
  induction ps generalizing recs with
  | nil => exact h
  | cons p ps ih =>
    have hstep : (if p.1.id ∈ recs.map (·.id) then recs
        else recs ++ [mk_pop_rec p.1 p.2]) ≠ [] := by
      split_ifs
      · exact h
      · simp
    simpa only [add_popular, List.foldl_cons] using ih _ hstep

/-- C4: when the external text-generation call raises,
`generate_personalized_recommendations` still returns a success envelope
whose structured content recommendations are non-empty whenever some trilha
the user is not enrolled in passes the difficulty filter; the AI-insights
part degrades to the fallback text instead of failing the operation. -/
theorem recommendations_survive_ai_failure (user : Usuario)
    (enrolled_ids : List ℤ) (all_trilhas : List Trilha)
    (populars : List (Trilha × ℕ)) (analytics : AnalyticsInfo)
    (hmatch : ∃ t ∈ all_trilhas, t.id ∉ enrolled_ids ∧
      tier_allows user.perfil_aprend t.dificuldade = true) :
    (generate_personalized_recommendations none user enrolled_ids all_trilhas
      populars analytics).success = true ∧
    (generate_personalized_recommendations none user enrolled_ids all_trilhas
      populars analytics).structured_recommendations.content_recommendations ≠
      [] ∧
    (generate_personalized_recommendations none user enrolled_ids all_trilhas
      populars analytics).ai_recommendations = fallback_recommendation_text ∧
    (generate_personalized_recommendations none user enrolled_ids all_trilhas
      populars analytics).structured_recommendations.ai_insights =
      fallback_recommendation_text := by
  obtain ⟨t, ht, hid, htier⟩ := hmatch
  refine ⟨rfl, ?_, rfl, rfl⟩
  have hq1 : t ∈ recommended_query_base enrolled_ids all_trilhas := by
    unfold recommended_query_base
    split_ifs
    · exact List.mem_filter.mpr ⟨ht, by simpa using hid⟩
    · exact ht
  have hq2 : t ∈ recommended_query user enrolled_ids all_trilhas := by
    unfold recommended_query
    split_ifs with hp
    · refine List.mem_filter.mpr ⟨hq1, ?_⟩
      unfold tier_allows at htier
      rw [if_pos hp] at htier
      exact htier
    · exact hq1
  have havail : get_recommended_trilhas_for_user user enrolled_ids
      all_trilhas 10 ≠ [] := by
    have hq2ne : recommended_query user enrolled_ids all_trilhas ≠ [] :=
      List.ne_nil_of_mem hq2
    simp [get_recommended_trilhas_for_user, List.take_eq_nil_iff, hq2ne]
  have htake3 : (get_recommended_trilhas_for_user user enrolled_ids
      all_trilhas 10).take 3 ≠ [] := by
    simp [List.take_eq_nil_iff, havail]
  have hr1 : ((get_recommended_trilhas_for_user user enrolled_ids
      all_trilhas 10).take 3).map
      (mk_tier_rec (difficulty_level_str user.perfil_aprend)) ≠ [] := by
    simpa using htake3
  have hfinal := add_popular_ne_nil (populars.take 2) _ hr1
  simpa only [generate_personalized_recommendations,
    process_ai_recommendations, generate_learning_recommendations]
    using hfinal

/-- Witness for `recommendations_survive_ai_failure` at a concrete input:
a beginner user, one unenrolled beginner trilha, failing AI call. -/
theorem recommendations_survive_ai_failure_witness :
    (∃ t ∈ ([⟨10, "T", "beginner"⟩] : List Trilha),
      t.id ∉ ([] : List ℤ) ∧
      tier_allows (Usuario.mk 1 "A" (some "beginner")).perfil_aprend
        t.dificuldade = true) ∧
    ((generate_personalized_recommendations none ⟨1, "A", some "beginner"⟩ []
        [⟨10, "T", "beginner"⟩] [] ⟨0, 0, 0⟩).success = true ∧
      (generate_personalized_recommendations none ⟨1, "A", some "beginner"⟩ []
        [⟨10, "T", "beginner"⟩] [] ⟨0, 0, 0⟩).structured_recommendations.content_recommendations ≠
        [] ∧
      (generate_personalized_recommendations none ⟨1, "A", some "beginner"⟩ []
        [⟨10, "T", "beginner"⟩] [] ⟨0, 0, 0⟩).ai_recommendations =
        fallback_recommendation_text ∧
      (generate_personalized_recommendations none ⟨1, "A", some "beginner"⟩ []
        [⟨10, "T", "beginner"⟩] [] ⟨0, 0, 0⟩).structured_recommendations.ai_insights =
        fallback_recommendation_text) :=
  ⟨by decide,
    recommendations_survive_ai_failure ⟨1, "A", some "beginner"⟩ []
      [⟨10, "T", "beginner"⟩] [] ⟨0, 0, 0⟩ (by decide)⟩

end ELearn
